import Mathlib

/-!
Verification of the deltuhbotv5 trading-data system: a shallow embedding of
the trade classifier (src/ingestor.py, src/backfill.py), the ingestion
worker's persistence loop (src/ingestor.py), the historical volume walker and
its job layer (src/main.py), and the level volume-tracking registry
(src/main.py), together with theorems settling the specification's claims.

Numeric conventions: Python ints become Nat/Int, the Python floats holding
prices and dollar values become Rat (the source only adds, multiplies,
divides and compares them), timestamps become Int.
-/

set_option allowUnsafeReducibility true

attribute [semireducible] Rat.mul Rat.add Rat.sub Rat.inv Rat.blt Rat.normalize

/-! ## Trade classification (src/ingestor.py, src/backfill.py) -/

/-- The classification decision for one raw trade: stored in `block_trades`,
stored in `lit_trades`, or not stored at all. -/
inductive Classification
  | Block
  | Lit
  | Reject
deriving DecidableEq, Repr

/-- The fields of one raw trade that the classification rule reads:
venue/exchange code (`x` on the feed, `exchange` on the historical API),
optional dark-pool facility id (`trfi` / `trf_id`), size and price.
`none` models a missing field. -/
structure RawTrade where
  exchange : Option Int
  trfId : Option Int
  size : Nat
  price : Rat
deriving DecidableEq, Repr

/-- Notional value of a trade: `value = size * price` (src/ingestor.py line 71,
src/backfill.py line 90). -/
def tradeValue (t : RawTrade) : Rat := (t.size : Rat) * t.price

/-- The live-feed classifier, src/ingestor.py lines 84-113: a trade is stored
in `block_trades` iff `exchange == 4 and trf_id is not None and
value >= MIN_VALUE` with `MIN_VALUE = 1_000_000` (line 84); otherwise it is
stored in `lit_trades` iff `not (exchange == 4 and trf_id is not None) and
value >= LIT_MIN_VALUE` with `LIT_MIN_VALUE = 10_000_000` (line 100);
otherwise it is dropped. -/
def classifyLive (t : RawTrade) : Classification :=
  if t.exchange = some 4 ∧ t.trfId ≠ none ∧ 1000000 ≤ tradeValue t then
    Classification.Block
  else if ¬(t.exchange = some 4 ∧ t.trfId ≠ none) ∧ 10000000 ≤ tradeValue t then
    Classification.Lit
  else
    Classification.Reject

/-- The historical-backfill classifier, src/backfill.py lines 87-119, both
modes combined into one decision (the script stores a trade in
`block_trades` when run with `--mode block` and in `lit_trades` when run
with `--mode lit`; the two insert conditions are mutually exclusive).
Line 87 skips a trade whose size or price is falsy (missing or zero) or
whose exchange is missing; block mode (line 94) skips a trade unless
`exch == 4` and `trf` is present and not `(qty < 10000 and val < 200000)`;
lit mode (line 108) skips a trade when `(exch == 4 and trf is not None)` or
`val < LIT_MIN_BACKFILL_VALUE` with `LIT_MIN_BACKFILL_VALUE = 10_000_000`.
The timestamp requirement of line 87 is handled by the surrounding loop and
does not involve these four fields. -/
def classifyBackfill (t : RawTrade) : Classification :=
  if t.exchange = none ∨ t.size = 0 ∨ t.price = 0 then
    Classification.Reject
  else if t.exchange = some 4 ∧ t.trfId ≠ none ∧ (10000 ≤ t.size ∨ 200000 ≤ tradeValue t) then
    Classification.Block
  else if ¬(t.exchange = some 4 ∧ t.trfId ≠ none) ∧ 10000000 ≤ tradeValue t then
    Classification.Lit
  else
    Classification.Reject

/-! ## Ingestion worker persistence (src/ingestor.py lines 47-120) -/

/-- The two trade tables of the persisted layout. -/
inductive TradeTable
  | blocks
  | lits
deriving DecidableEq, Repr

/-- One stored trade row, restricted to the columns of the natural composite
key: table, ticker, trade time, price, quantity and the venue fields
(exchange, and the dark-pool facility id for `block_trades`).  The derived
`trade_value` and the `conditions` array are determined by these or carry no
key role. -/
structure StoredRow where
  table : TradeTable
  ticker : String
  tradeTime : Int
  price : Rat
  quantity : Nat
  exchange : Option Int
  trfId : Option Int
deriving DecidableEq, Repr

/-- `INSERT ... ON CONFLICT DO NOTHING` against a table carrying the composite
uniqueness key: append the row unless a row with the same key is already
stored.  Modelled from the spec: the uniqueness constraint on the two trade
tables ("keyed by (ticker, time, price, size, venue fields)", spec section 3)
is created by schema tooling outside src/; `ON CONFLICT DO NOTHING` in
src/ingestor.py lines 91 and 107 then makes a redundant insert a no-op.
`StoredRow` holds exactly the key columns, so two rows conflict iff they are
equal. -/
def insertIdempotent (tbl : List StoredRow) (r : StoredRow) : List StoredRow :=
  if tbl.any fun r2 => decide (r2 = r) then tbl else tbl ++ [r]

/-- How many stored rows carry the same composite key as `r`. -/
def rowCount (tbl : List StoredRow) (r : StoredRow) : Nat :=
  (tbl.filter fun r2 => decide (r2 = r)).length

/-- One trade event of a feed message batch, src/ingestor.py lines 65-76:
event type `ev`, symbol `sym`, size `s` (default 0), price `p` (default 0.0),
exchange `x`, facility id `trfi`, facility timestamp `trft`, event timestamp
`t`.  `dbFails` models the environment: whether executing this trade's
database statements raises (the `except` at line 115). -/
structure FeedTrade where
  ev : String
  sym : String
  size : Nat
  price : Rat
  exchange : Option Int
  trfId : Option Int
  trfTs : Option Int
  t : Option Int
  dbFails : Bool
deriving DecidableEq, Repr

/-- The classifier fields of a feed trade. -/
def feedRaw (tr : FeedTrade) : RawTrade :=
  { exchange := tr.exchange, trfId := tr.trfId, size := tr.size, price := tr.price }

/-- `ts_field = trf_ts if trf_ts is not None else trade.get("t")`
(src/ingestor.py line 76). -/
def tradeTimestamp (tr : FeedTrade) : Option Int :=
  match tr.trfTs with
  | some ts => some ts
  | none => tr.t

/-- The persisted store as one worker sees it: the stored rows of both trade
tables and how many commits the worker has issued. -/
structure DBState where
  rows : List StoredRow
  commits : Nat
deriving DecidableEq, Repr

/-- The body of the worker's per-trade loop, src/ingestor.py lines 65-119:
skip a non-`T` event (line 66) or a trade with no timestamp (lines 76-78);
otherwise run the try block, which executes at most one classified insert
and then `conn.commit()` (line 114) - one commit per trade, issued even when
neither insert matched (the transaction is then empty).  If the trade's
database statements raise, the `except` branch (lines 115-119) rolls the
current transaction back: nothing of this trade is stored and no commit is
counted. -/
def workerProcessTrade (db : DBState) (tr : FeedTrade) : DBState :=
  if tr.ev ≠ "T" then db
  else
    match tradeTimestamp tr with
    | none => db
    | some ts =>
      if tr.dbFails then db
      else
        match classifyLive (feedRaw tr) with
        | Classification.Block =>
          { rows := insertIdempotent db.rows
              ⟨TradeTable.blocks, tr.sym, ts, tr.price, tr.size, tr.exchange, tr.trfId⟩,
            commits := db.commits + 1 }
        | Classification.Lit =>
          { rows := insertIdempotent db.rows
              ⟨TradeTable.lits, tr.sym, ts, tr.price, tr.size, tr.exchange, none⟩,
            commits := db.commits + 1 }
        | Classification.Reject => { db with commits := db.commits + 1 }

/-- One whole message batch, processed trade by trade (src/ingestor.py
line 65). -/
def workerProcessBatch (db : DBState) (batch : List FeedTrade) : DBState :=
  batch.foldl workerProcessTrade db

/-! ## Historical volume walker (src/main.py lines 367-470) -/

/-- One trade of a historical results page: `size` and `price`
(src/main.py lines 425-426). -/
structure HistTrade where
  size : Nat
  price : Rat
deriving DecidableEq, Repr

/-- What one fetch attempt inside the page loop yields: an exception from
`client.get`/`raise_for_status`/`json()` (src/main.py lines 408-416), or a
page with its `results` array and whether a `next_url` cursor is present. -/
inductive ProviderResponse
  | fetchError
  | page (results : List HistTrade) (hasNext : Bool)
deriving DecidableEq, Repr

/-- The loop state of `unlimited_fast_calculate_level_volume`
(src/main.py lines 393-399): the accumulated totals, the number of fetch
attempts (`api_calls`), and the observed price range.  `minActualPrice = none`
models the initial `float('inf')` sentinel. -/
structure WalkState where
  totalVolume : Nat
  totalValue : Rat
  totalTrades : Nat
  apiCalls : Nat
  minActualPrice : Option Rat
  maxActualPrice : Rat
deriving DecidableEq, Repr

/-- The state before the first fetch (src/main.py lines 393-399). -/
def initWalkState : WalkState :=
  { totalVolume := 0, totalValue := 0, totalTrades := 0, apiCalls := 0,
    minActualPrice := none, maxActualPrice := 0 }

/-- The per-trade body of the page loop, src/main.py lines 424-439: skip a
trade whose size or price is falsy (`if not (qty and price)`), and accumulate
a trade whose price lies in the closed band
`min_price <= price <= max_price`. -/
def processTrade (lo hi : Rat) (st : WalkState) (t : HistTrade) : WalkState :=
  if t.size = 0 ∨ t.price = 0 then st
  else if lo ≤ t.price ∧ t.price ≤ hi then
    { st with
      totalVolume := st.totalVolume + t.size
      totalValue := st.totalValue + (t.size : Rat) * t.price
      totalTrades := st.totalTrades + 1
      minActualPrice := some (match st.minActualPrice with
        | none => t.price
        | some m => min m t.price)
      maxActualPrice := max st.maxActualPrice t.price }
  else st

/-- One iteration of `while url:` (src/main.py lines 404-448) given what this
fetch attempt yields.  `api_calls += 1` happens first (line 405).  A fetch
exception is logged and the loop continues with the same URL (lines 412-416).
An empty `results` array breaks before processing (lines 418-421).  Otherwise
the page's trades are processed, and the loop continues iff a `next_url` is
present (lines 442-448).  The returned flag says whether the loop keeps
running. -/
def walkStep (lo hi : Rat) (st : WalkState) (r : ProviderResponse) : WalkState × Bool :=
  let st1 := { st with apiCalls := st.apiCalls + 1 }
  match r with
  | ProviderResponse.fetchError => (st1, true)
  | ProviderResponse.page results hasNext =>
    if results = [] then (st1, false)
    else
      let st2 := results.foldl (processTrade lo hi) st1
      if hasNext then (st2, true) else (st2, false)

/-- The page loop run for `n` fetch attempts against the provider's response
sequence `f` (`f k` is what the `k`-th fetch attempt yields), starting from
state `st` with the loop-running flag `cont`.  `url` is a nonempty string
whenever the loop is reached, so the `while url:` condition never exits the
loop by itself: the loop ends exactly through the `break` statements modelled
in `walkStep`. -/
def walkRun (lo hi : Rat) (st : WalkState) (cont : Bool)
    (f : Nat → ProviderResponse) : Nat → WalkState × Bool
  | 0 => (st, cont)
  | n + 1 =>
    if cont then
      let next := walkStep lo hi st (f 0)
      walkRun lo hi next.1 next.2 (fun k => f (k + 1)) n
    else (st, cont)

/-- The walk over response sequence `f` terminates: after some number of
fetch attempts the loop is no longer running. -/
def WalkTerminates (lo hi : Rat) (f : Nat → ProviderResponse) : Prop :=
  ∃ n, (walkRun lo hi initWalkState true f n).2 = false

/-- A response on which the loop breaks: a page with an empty `results`
array, or a page without a `next_url`.  A fetch error is not terminal - the
loop continues (src/main.py line 416). -/
def isTerminalResponse : ProviderResponse → Prop
  | ProviderResponse.fetchError => False
  | ProviderResponse.page results hasNext => results = [] ∨ hasNext = false

/-- The response sequence served by a provider holding the finite page list
`pages`, when every fetch succeeds: attempt `k` returns page `k` with a
`next_url` present iff a further page exists, and an empty page past the
end. -/
def pagesResponses (pages : List (List HistTrade)) (n : Nat) : ProviderResponse :=
  if n < pages.length then
    ProviderResponse.page (pages.getD n []) (decide (n + 1 < pages.length))
  else
    ProviderResponse.page [] false

/-- A provider that always answers with a nonempty page carrying a
`next_url`. -/
def endlessResponses : Nat → ProviderResponse :=
  fun _ => ProviderResponse.page [⟨100, 10⟩] true

/-- The dict returned by `unlimited_fast_calculate_level_volume`
(src/main.py lines 462-470), restricted to its numeric payload. -/
structure WalkerResult where
  totalVolume : Nat
  totalValue : Rat
  totalTrades : Nat
  apiCallsMade : Nat
deriving DecidableEq, Repr

/-- Package a final loop state as the walker's returned dict. -/
def walkerResultOf (st : WalkState) : WalkerResult :=
  { totalVolume := st.totalVolume, totalValue := st.totalValue,
    totalTrades := st.totalTrades, apiCallsMade := st.apiCalls }

/-- The walker as its callers see it, src/main.py lines 367-470: it raises
before the page loop when `POLYGON_API_KEY` is not set (line 374), and
otherwise returns the totals of the terminated page loop.  `n` is a number of
fetch attempts after which the loop has stopped.  No exception escapes the
loop itself: every fetch error is caught at lines 412-416. -/
def walkerOutcome (apiKeyPresent : Bool) (lo hi : Rat)
    (f : Nat → ProviderResponse) (n : Nat) : Except String WalkerResult :=
  if apiKeyPresent then
    Except.ok (walkerResultOf (walkRun lo hi initWalkState true f n).1)
  else
    Except.error "POLYGON_API_KEY not set"

/-- A job record's terminal fields as `enhanced_volume_job` leaves them. -/
structure JobOutcome where
  status : String
  error : Option String
  result : Option WalkerResult
deriving DecidableEq, Repr

/-- The try/except skeleton of `enhanced_volume_job`, src/main.py lines
984-1052: if the walker call returns a result the job ends `completed` with
that result; if it raises, the cached fallback is tried (lines 1007-1015),
and only when no cache is available does the exception propagate to the
outer handler, which marks the job `failed` and records the message (lines
1048-1052).  `enhanced_absorption_job` (lines 909-982) has the same
skeleton. -/
def enhancedVolumeJobOutcome (walker : Except String WalkerResult)
    (hasCache : Bool) (cacheResult : WalkerResult) : JobOutcome :=
  match walker with
  | Except.ok r => { status := "completed", error := none, result := some r }
  | Except.error e =>
    if hasCache then { status := "completed", error := none, result := some cacheResult }
    else { status := "failed", error := some e, result := none }

/-! ## Level volume tracking and absorption segments (src/main.py) -/

/-- One `level_volume_tracking` row (columns written by
`update_level_volume_tracking`, src/main.py lines 873-905; dates as
timestamps). -/
structure VolumeTrackingRow where
  ticker : String
  levelPrice : Rat
  priceRangeLow : Rat
  priceRangeHigh : Rat
  originalVolume : Nat
  originalValue : Rat
  absorbedVolume : Nat
  absorbedValue : Rat
  absorptionPercentage : Rat
  originalDateStart : Int
  originalDateEnd : Int
  absorptionStartDate : Int
deriving DecidableEq, Repr

/-- `update_level_volume_tracking`, src/main.py lines 842-905, acting on the
level's (at most one) tracking row.  Absorption branch (lines 854-884): read
`original_volume`; if the row exists and the value is truthy, OVERWRITE
`absorbed_volume`/`absorbed_value` with THIS job's totals, set
`absorption_percentage = (absorbed_volume / original_volume) * 100` (the
guard `original_volume > 0` always holds here since a truthy Nat is
positive), set `absorption_start_date` to the END date (line 872), else raise
`ValueError` before any UPDATE runs (line 884).  Baseline branch (lines
885-905): upsert - a fresh row starts with zeroed absorbed fields; on
conflict only the original volume/value/date columns are replaced and the
absorbed columns keep their stored values. -/
def updateLevelVolumeTracking (ticker : String) (levelPrice : Rat)
    (vd : WalkerResult) (tolerance : Rat) (startDate endDate : Int)
    (isAbsorption : Bool) (vt : Option VolumeTrackingRow) :
    Except String (Option VolumeTrackingRow) :=
  if isAbsorption then
    match vt with
    | some row =>
      if row.originalVolume ≠ 0 then
        Except.ok (some { row with
          absorbedVolume := vd.totalVolume
          absorbedValue := vd.totalValue
          absorptionPercentage :=
            if 0 < row.originalVolume then
              ((vd.totalVolume : Rat) / (row.originalVolume : Rat)) * 100
            else 0
          absorptionStartDate := endDate })
      else Except.error "no original volume data. Set original volume first."
    | none => Except.error "no original volume data. Set original volume first."
  else
    match vt with
    | none =>
      Except.ok (some
        { ticker := ticker, levelPrice := levelPrice,
          priceRangeLow := levelPrice - tolerance,
          priceRangeHigh := levelPrice + tolerance,
          originalVolume := vd.totalVolume, originalValue := vd.totalValue,
          absorbedVolume := 0, absorbedValue := 0, absorptionPercentage := 0,
          originalDateStart := startDate, originalDateEnd := endDate,
          absorptionStartDate := endDate })
    | some row =>
      Except.ok (some { row with
        originalVolume := vd.totalVolume
        originalValue := vd.totalValue
        originalDateStart := startDate
        originalDateEnd := endDate })

/-- The tracking row as the store holds it after the call: on an error the
exception is raised before any UPDATE/INSERT statement runs, so the stored
row keeps its previous value. -/
def applyTrackingUpdate (r : Except String (Option VolumeTrackingRow))
    (vt : Option VolumeTrackingRow) : Option VolumeTrackingRow :=
  match r with
  | Except.ok v => v
  | Except.error _ => vt

/-- One `absorption_job_segments` row (src/main.py lines 472-488). -/
structure AbsorptionSegment where
  jobId : String
  volume : Nat
  value : Rat
  trades : Nat
  dateStart : Int
  dateEnd : Int
deriving DecidableEq, Repr

/-- The inputs of one absorption job run against a level: the job id, the
walker's totals and the job's date range. -/
structure AbsorptionJobSpec where
  jobId : String
  data : WalkerResult
  dateStart : Int
  dateEnd : Int
deriving DecidableEq, Repr

/-- The segment `create_absorption_job_segment` inserts for a completed
absorption job (src/main.py lines 478-488). -/
def segmentOfJob (j : AbsorptionJobSpec) : AbsorptionSegment :=
  { jobId := j.jobId, volume := j.data.totalVolume, value := j.data.totalValue,
    trades := j.data.totalTrades, dateStart := j.dateStart, dateEnd := j.dateEnd }

/-- The level-side effect of one `enhanced_absorption_job` whose walker
already produced `j.data` (src/main.py lines 948-957): first
`update_level_volume_tracking(..., is_absorption=True)`, then
`create_absorption_job_segment`.  If the update raises, the except handler
(lines 978-982) marks the job failed: no segment is appended and the
tracking row is untouched. -/
def runAbsorptionJob (ticker : String) (levelPrice : Rat) (tolerance : Rat)
    (j : AbsorptionJobSpec)
    (st : Option VolumeTrackingRow × List AbsorptionSegment) :
    Option VolumeTrackingRow × List AbsorptionSegment :=
  match updateLevelVolumeTracking ticker levelPrice j.data tolerance
      j.dateStart j.dateEnd true st.1 with
  | Except.ok vt2 => (vt2, st.2 ++ [segmentOfJob j])
  | Except.error _ => st

/-- A sequence of absorption jobs completing one after the other against the
same level. -/
def runAbsorptionJobs (ticker : String) (levelPrice : Rat) (tolerance : Rat)
    (js : List AbsorptionJobSpec)
    (st : Option VolumeTrackingRow × List AbsorptionSegment) :
    Option VolumeTrackingRow × List AbsorptionSegment :=
  js.foldl (fun s j => runAbsorptionJob ticker levelPrice tolerance j s) st

/-! ## Linking a job to a level (src/main.py lines 1403-1432) -/

/-- The fields of a `jobs_db` record that `link_job_to_level` reads. -/
structure JobRec where
  status : String
  isAbsorption : Bool
  result : WalkerResult
  ticker : String
  levelPrice : Rat
  dateStart : Int
  dateEnd : Int
deriving DecidableEq, Repr

/-- `link_job_to_level`, src/main.py lines 1403-1432: 404 when the job id is
not in `jobs_db` (lines 1406-1407), 400 unless the job's status is exactly
the string "completed" (lines 1410-1411), and otherwise
`update_level_volume_tracking` is applied with the job's stored result and
absorption flag, with tolerance hard-coded to 0.025 (line 1420).  Both
rejections are raised before `update_level_volume_tracking` is called. -/
def linkJobToLevel (jobs : String → Option JobRec) (jobId : String)
    (vt : Option VolumeTrackingRow) : Except String (Option VolumeTrackingRow) :=
  match jobs jobId with
  | none => Except.error "Job not found"
  | some job =>
    if job.status = "completed" then
      updateLevelVolumeTracking job.ticker job.levelPrice job.result (25 / 1000)
        job.dateStart job.dateEnd job.isAbsorption vt
    else Except.error "Job must be completed to link to level"

/-! ## Helper lemmas -/

/-- The live classifier stores a trade as a block iff it carries the
dark-pool venue code and a facility id and its value reaches $1,000,000. -/
lemma classifyLive_eq_Block_iff (t : RawTrade) :
    classifyLive t = Classification.Block ↔
      t.exchange = some 4 ∧ t.trfId ≠ none ∧ 1000000 ≤ tradeValue t := by
  unfold classifyLive
  split_ifs with h1 h2 <;> simp_all

/-- The live classifier stores a trade as lit iff it does not carry the
dark-pool venue-and-facility combination and its value reaches
$10,000,000. -/
lemma classifyLive_eq_Lit_iff (t : RawTrade) :
    classifyLive t = Classification.Lit ↔
      ¬(t.exchange = some 4 ∧ t.trfId ≠ none) ∧ 10000000 ≤ tradeValue t := by
  unfold classifyLive
  split_ifs with h1 h2 <;> simp_all

/-- The backfill classifier stores a trade as a block iff its fields are
present and nonzero, it carries the dark-pool venue code and a facility id,
and its size reaches 10,000 shares or its value reaches $200,000. -/
lemma classifyBackfill_eq_Block_iff (t : RawTrade) :
    classifyBackfill t = Classification.Block ↔
      ¬(t.exchange = none ∨ t.size = 0 ∨ t.price = 0) ∧
      (t.exchange = some 4 ∧ t.trfId ≠ none ∧ (10000 ≤ t.size ∨ 200000 ≤ tradeValue t)) := by
  unfold classifyBackfill
  split_ifs with h1 h2 h3 <;> simp_all

/-- The backfill classifier stores a trade as lit iff its fields are present
and nonzero, it does not carry the dark-pool venue-and-facility combination,
and its value reaches $10,000,000. -/
lemma classifyBackfill_eq_Lit_iff (t : RawTrade) :
    classifyBackfill t = Classification.Lit ↔
      ¬(t.exchange = none ∨ t.size = 0 ∨ t.price = 0) ∧
      ¬(t.exchange = some 4 ∧ t.trfId ≠ none) ∧ 10000000 ≤ tradeValue t := by
  unfold classifyBackfill
  split_ifs with h1 h2 h3 <;> simp_all

/-- A trade whose value reaches a positive floor has nonzero size and
price. -/
lemma size_price_ne_zero_of_value (t : RawTrade) (c : Rat) (hc : 0 < c)
    (h : c ≤ tradeValue t) : t.size ≠ 0 ∧ t.price ≠ 0 := by
  constructor
  · intro h0
    rw [tradeValue, h0] at h
    simp at h
    exact absurd (lt_of_lt_of_le hc h) (lt_irrefl 0)
  · intro h0
    rw [tradeValue, h0, mul_zero] at h
    exact absurd (lt_of_lt_of_le hc h) (lt_irrefl 0)

/-! ## Claim C2: the live classification rule -/

/-- C2, counterexample: the claim says a trade with the dark-pool venue code,
a facility id present and value $250,000 is classified Block, but the live
classifier (src/ingestor.py line 84) requires value at least $1,000,000 for a
block and rejects this trade (it is excluded from the lit branch by its
venue, and $250,000 is below the $10,000,000 lit floor). -/
theorem C2_value_250000_rejected :
    tradeValue ⟨some 4, some 201, 1000, 250⟩ = 250000 ∧
    classifyLive ⟨some 4, some 201, 1000, 250⟩ = Classification.Reject := by
  constructor <;> decide

/-- C2 (amended): the live classifier marks a trade Block iff its venue is
the dark-pool code 4 AND a facility id is present AND its value is at least
$1,000,000 (there is no size-floor disjunct in the live path); it marks it
Lit iff it is not Block AND its value is at least $10,000,000; otherwise it
rejects it.  The $250,000 facility trade of the claim is rejected. -/
theorem C2_live_classification_rule (t : RawTrade) :
    (classifyLive t = Classification.Block ↔
      t.exchange = some 4 ∧ t.trfId ≠ none ∧ 1000000 ≤ tradeValue t) ∧
    (classifyLive t = Classification.Lit ↔
      classifyLive t ≠ Classification.Block ∧ 10000000 ≤ tradeValue t) ∧
    (classifyLive t = Classification.Reject ↔
      classifyLive t ≠ Classification.Block ∧ classifyLive t ≠ Classification.Lit) := by
  have hb := classifyLive_eq_Block_iff t
  have hl := classifyLive_eq_Lit_iff t
  refine ⟨hb, ?_, ?_⟩
  · rw [hl]
    constructor
    · rintro ⟨hnd, hv⟩
      refine ⟨fun hB => ?_, hv⟩
      obtain ⟨h1, h2, _⟩ := hb.mp hB
      exact hnd ⟨h1, h2⟩
    · rintro ⟨hnb, hv⟩
      exact ⟨fun hd => hnb (hb.mpr ⟨hd.1, hd.2, le_trans (by norm_num) hv⟩), hv⟩
  · cases hc : classifyLive t <;> simp

/-! ## Claim C3: live feed versus historical backfill -/

/-- C3, counterexample: the same trade record (venue 4, facility id present,
size 1000, price $250) is rejected by the live-feed path but stored as a
block by the historical backfill path, so the two classification decisions
are not equal. -/
theorem C3_paths_disagree :
    classifyLive ⟨some 4, some 201, 1000, 250⟩ = Classification.Reject ∧
    classifyBackfill ⟨some 4, some 201, 1000, 250⟩ = Classification.Block := by
  constructor <;> decide

/-- C3 (amended): for a trade record whose exchange field is present, the Lit
decision of the live path and of the backfill path coincide, and a Block
decision on the live path implies a Block decision on the backfill path; the
paths genuinely differ on dark-pool trades whose value lies below $1,000,000
while their size reaches 10,000 shares or their value reaches $200,000
(backfill Block, live Reject). -/
theorem C3_live_backfill_partial_agreement (t : RawTrade) (hx : t.exchange ≠ none) :
    (classifyLive t = Classification.Lit ↔ classifyBackfill t = Classification.Lit) ∧
    (classifyLive t = Classification.Block → classifyBackfill t = Classification.Block) := by
  constructor
  · rw [classifyLive_eq_Lit_iff, classifyBackfill_eq_Lit_iff]
    constructor
    · rintro ⟨hnd, hv⟩
      have hsz := size_price_ne_zero_of_value t 10000000 (by norm_num) hv
      refine ⟨?_, hnd, hv⟩
      push_neg
      exact ⟨hx, hsz.1, hsz.2⟩
    · rintro ⟨_, hnd, hv⟩
      exact ⟨hnd, hv⟩
  · rw [classifyLive_eq_Block_iff, classifyBackfill_eq_Block_iff]
    rintro ⟨hx4, htrf, hv⟩
    have hsz := size_price_ne_zero_of_value t 1000000 (by norm_num) hv
    refine ⟨?_, hx4, htrf, Or.inr (le_trans (by norm_num) hv)⟩
    push_neg
    exact ⟨hx, hsz.1, hsz.2⟩

/-! ## Claims C7 and C8: worker transactions and idempotent persistence -/

/-- A row already stored stays stored across any further insert. -/
lemma mem_insertIdempotent (tbl : List StoredRow) (r x : StoredRow)
    (hx : x ∈ tbl) : x ∈ insertIdempotent tbl r := by
  unfold insertIdempotent
  split_ifs with h
  · exact hx
  · exact List.mem_append_left _ hx

/-- Re-inserting a row right after inserting it leaves the table unchanged:
the second `ON CONFLICT DO NOTHING` insert hits the key. -/
lemma insertIdempotent_stable (tbl : List StoredRow) (r : StoredRow) :
    insertIdempotent (insertIdempotent tbl r) r = insertIdempotent tbl r := by
  by_cases h : (tbl.any fun r2 => decide (r2 = r)) = true
  · have h1 : insertIdempotent tbl r = tbl := by
      unfold insertIdempotent
      rw [if_pos h]
    rw [h1, h1]
  · have h1 : insertIdempotent tbl r = tbl ++ [r] := by
      unfold insertIdempotent
      rw [if_neg h]
    have h2 : ((tbl ++ [r]).any fun r2 => decide (r2 = r)) = true := by
      rw [List.any_append]
      simp
    rw [h1]
    unfold insertIdempotent
    rw [if_pos h2]

/-- Inserting a row whose key is absent stores it exactly once. -/
lemma rowCount_insert_new (tbl : List StoredRow) (r : StoredRow)
    (h : rowCount tbl r = 0) : rowCount (insertIdempotent tbl r) r = 1 := by
  unfold rowCount at h ⊢
  have hfil : tbl.filter (fun r2 => decide (r2 = r)) = [] := List.length_eq_zero.mp h
  have hany : (tbl.any fun r2 => decide (r2 = r)) = false := by
    rw [List.any_eq_false]
    intro x hx
    exact List.filter_eq_nil_iff.mp hfil x hx
  unfold insertIdempotent
  rw [if_neg (by rw [hany]; exact Bool.false_ne_true), List.filter_append, hfil]
  simp

/-- Processing one trade never removes a stored row: a commit is final and a
rollback only discards the failing trade's own statements. -/
lemma workerProcessTrade_rows_mono (db : DBState) (tr : FeedTrade) (r : StoredRow)
    (hr : r ∈ db.rows) : r ∈ (workerProcessTrade db tr).rows := by
  unfold workerProcessTrade
  by_cases hev : tr.ev ≠ "T"
  · rw [if_pos hev]
    exact hr
  · rw [if_neg hev]
    rcases hts : tradeTimestamp tr with _ | ts
    · exact hr
    · dsimp only
      by_cases hdb : tr.dbFails
      · rw [if_pos hdb]
        exact hr
      · rw [if_neg hdb]
        rcases hc : classifyLive (feedRaw tr) <;> dsimp only
        · exact mem_insertIdempotent _ _ _ hr
        · exact mem_insertIdempotent _ _ _ hr
        · exact hr

/-- Rows stored before a batch survive the whole batch. -/
lemma workerProcessBatch_rows_mono (db : DBState) (batch : List FeedTrade)
    (r : StoredRow) (hr : r ∈ db.rows) : r ∈ (workerProcessBatch db batch).rows := by
  induction batch generalizing db with
  | nil => exact hr
  | cons tr rest ih =>
    simp only [workerProcessBatch, List.foldl_cons]
    exact ih (workerProcessTrade db tr) (workerProcessTrade_rows_mono db tr r hr)

/-- A sample stored row used by concrete instances. -/
def sampleStoredRow : StoredRow :=
  ⟨TradeTable.blocks, "XYZ", 1000, 150, 10000, some 4, some 201⟩

/-- A qualifying block trade whose database statements succeed. -/
def feedTradeOk1 : FeedTrade :=
  ⟨"T", "XYZ", 10000, 150, some 4, some 201, some 1000, some 1000, false⟩

/-- A second qualifying block trade whose database statements succeed. -/
def feedTradeOk2 : FeedTrade :=
  ⟨"T", "XYZ", 12000, 150, some 4, some 201, some 3000, some 3000, false⟩

/-- A qualifying block trade whose database statements raise. -/
def feedTradeFail : FeedTrade :=
  ⟨"T", "XYZ", 20000, 150, some 4, some 201, some 2000, some 2000, true⟩

/-- C7, counterexample: the worker does not commit once per batch and does
not roll the whole batch back on a persistence error.  In a batch whose
second trade's insert raises, the first trade's row stays stored (the claim
says no trade of a failed batch remains stored); and a batch of two
successful trades is committed twice, not once. -/
theorem C7_batch_not_transactional :
    feedTradeFail.dbFails = true ∧
    (workerProcessBatch ⟨[], 0⟩ [feedTradeOk1, feedTradeFail]).rows = [sampleStoredRow] ∧
    (workerProcessBatch ⟨[], 0⟩ [feedTradeOk1, feedTradeOk2]).commits = 2 := by
  refine ⟨rfl, by decide, by decide⟩

/-- C7 (amended): the worker runs one transaction per trade, not per batch
(src/ingestor.py line 114 commits inside the per-trade loop): rows committed
for earlier trades of a batch are never removed by a later failure, a trade
whose database statements raise leaves the store exactly as it was (only its
own statements are rolled back), and every successfully processed `T` trade
with a timestamp adds exactly one commit. -/
theorem C7_commit_per_trade (db : DBState) (batch : List FeedTrade) :
    (∀ r ∈ db.rows, r ∈ (workerProcessBatch db batch).rows) ∧
    (∀ tr : FeedTrade, tr.dbFails = true → workerProcessTrade db tr = db) ∧
    (∀ tr : FeedTrade, tr.ev = "T" → tradeTimestamp tr ≠ none → tr.dbFails = false →
      (workerProcessTrade db tr).commits = db.commits + 1) := by
  refine ⟨fun r hr => workerProcessBatch_rows_mono db batch r hr, ?_, ?_⟩
  · intro tr hdb
    unfold workerProcessTrade
    by_cases hev : tr.ev ≠ "T"
    · rw [if_pos hev]
    · rw [if_neg hev]
      rcases hts : tradeTimestamp tr with _ | ts
      · rfl
      · dsimp only
        rw [if_pos hdb]
  · intro tr hev hts hdb
    unfold workerProcessTrade
    rw [if_neg (by simp [hev])]
    rcases h : tradeTimestamp tr with _ | ts
    · exact absurd h hts
    · dsimp only
      rw [if_neg (by simp [hdb])]
      rcases hc : classifyLive (feedRaw tr) <;> rfl

/-- C8: inserting the same physical trade twice yields exactly one stored
row; the redundant insert leaves the table unchanged, and reprocessing the
same feed trade leaves the stored rows unchanged.  The uniqueness key is
modelled from the spec (section 3): its constraint lives in schema tooling
outside src/, while `ON CONFLICT DO NOTHING` is src/ingestor.py lines 91
and 107. -/
theorem C8_duplicate_insert_idempotent (tbl : List StoredRow) (r : StoredRow)
    (h : rowCount tbl r = 0) :
    rowCount (insertIdempotent (insertIdempotent tbl r) r) r = 1 ∧
    insertIdempotent (insertIdempotent tbl r) r = insertIdempotent tbl r ∧
    ∀ (db : DBState) (tr : FeedTrade),
      (workerProcessTrade (workerProcessTrade db tr) tr).rows =
        (workerProcessTrade db tr).rows := by
  refine ⟨?_, insertIdempotent_stable tbl r, ?_⟩
  · rw [insertIdempotent_stable]
    exact rowCount_insert_new tbl r h
  · intro db tr
    by_cases hev : tr.ev ≠ "T"
    · simp [workerProcessTrade, hev]
    · rcases hts : tradeTimestamp tr with _ | ts
      · simp [workerProcessTrade, hev, hts]
      · by_cases hdb : tr.dbFails
        · simp [workerProcessTrade, hev, hts, hdb]
        · rcases hc : classifyLive (feedRaw tr) <;>
            simp [workerProcessTrade, hev, hts, hdb, hc, insertIdempotent_stable]

/-- C8, witness: the double insert of a concrete block-trade row into an
empty table. -/
theorem C8_duplicate_insert_idempotent_witness :
    rowCount [] sampleStoredRow = 0 ∧
    (rowCount (insertIdempotent (insertIdempotent [] sampleStoredRow) sampleStoredRow)
        sampleStoredRow = 1 ∧
      insertIdempotent (insertIdempotent [] sampleStoredRow) sampleStoredRow =
        insertIdempotent [] sampleStoredRow ∧
      ∀ (db : DBState) (tr : FeedTrade),
        (workerProcessTrade (workerProcessTrade db tr) tr).rows =
          (workerProcessTrade db tr).rows) :=
  ⟨by decide, C8_duplicate_insert_idempotent [] sampleStoredRow (by decide)⟩

/-! ## Claims C9, C10, C1: the level volume-tracking registry -/

/-- The tracking row a successful absorption update leaves behind: the
absorbed fields are replaced by this job's totals and everything else is
kept. -/
def rowAfterAbsorption (base : VolumeTrackingRow) (j : AbsorptionJobSpec) : VolumeTrackingRow :=
  { base with
    absorbedVolume := j.data.totalVolume
    absorbedValue := j.data.totalValue
    absorptionPercentage := ((j.data.totalVolume : Rat) / (base.originalVolume : Rat)) * 100
    absorptionStartDate := j.dateEnd }

/-- An absorption update against a row with a truthy baseline succeeds and
returns the overwritten row. -/
lemma updateLVT_absorption_some (ticker : String) (levelPrice : Rat) (vd : WalkerResult)
    (tolerance : Rat) (startDate endDate : Int) (base : VolumeTrackingRow)
    (h : base.originalVolume ≠ 0) :
    updateLevelVolumeTracking ticker levelPrice vd tolerance startDate endDate true (some base) =
      Except.ok (some { base with
        absorbedVolume := vd.totalVolume
        absorbedValue := vd.totalValue
        absorptionPercentage := ((vd.totalVolume : Rat) / (base.originalVolume : Rat)) * 100
        absorptionStartDate := endDate }) := by
  have hpos : 0 < base.originalVolume := Nat.pos_of_ne_zero h
  simp [updateLevelVolumeTracking, h, hpos]

/-- One absorption job against a level with a truthy baseline: the tracking
row is overwritten and one segment is appended. -/
lemma runAbsorptionJob_success (ticker : String) (levelPrice tolerance : Rat)
    (j : AbsorptionJobSpec) (base : VolumeTrackingRow) (segs : List AbsorptionSegment)
    (h : base.originalVolume ≠ 0) :
    runAbsorptionJob ticker levelPrice tolerance j (some base, segs) =
      (some (rowAfterAbsorption base j), segs ++ [segmentOfJob j]) := by
  unfold runAbsorptionJob
  dsimp only
  rw [updateLVT_absorption_some ticker levelPrice j.data tolerance j.dateStart j.dateEnd base h]
  rfl

/-- Unfolding one job from a job sequence. -/
lemma runAbsorptionJobs_cons (ticker : String) (levelPrice tolerance : Rat)
    (j0 : AbsorptionJobSpec) (rest : List AbsorptionJobSpec)
    (st : Option VolumeTrackingRow × List AbsorptionSegment) :
    runAbsorptionJobs ticker levelPrice tolerance (j0 :: rest) st =
      runAbsorptionJobs ticker levelPrice tolerance rest
        (runAbsorptionJob ticker levelPrice tolerance j0 st) := by
  simp only [runAbsorptionJobs, List.foldl_cons]

/-- C9: an absorption request against a level whose tracking row is missing,
or whose `original_volume` is not truthy, raises the "no original volume"
`ValueError` before any UPDATE statement runs, so the request is rejected
and the stored tracking row is unchanged (src/main.py lines 861-884). -/
theorem C9_absorption_requires_baseline (ticker : String) (levelPrice tolerance : Rat)
    (vd : WalkerResult) (startDate endDate : Int) (vt : Option VolumeTrackingRow)
    (h : vt = none ∨ ∃ row, vt = some row ∧ row.originalVolume = 0) :
    updateLevelVolumeTracking ticker levelPrice vd tolerance startDate endDate true vt =
      Except.error "no original volume data. Set original volume first." ∧
    applyTrackingUpdate
      (updateLevelVolumeTracking ticker levelPrice vd tolerance startDate endDate true vt)
      vt = vt := by
  have herr : updateLevelVolumeTracking ticker levelPrice vd tolerance startDate endDate true vt =
      Except.error "no original volume data. Set original volume first." := by
    rcases h with hnone | ⟨row, hrow, h0⟩
    · subst hnone
      rfl
    · subst hrow
      simp [updateLevelVolumeTracking, h0]
  refine ⟨herr, ?_⟩
  rw [herr]
  rfl

/-- C9, witness: an absorption update against a level with no tracking row at
all. -/
theorem C9_absorption_requires_baseline_witness :
    updateLevelVolumeTracking "XYZ" 100 ⟨600, 60000, 3, 2⟩ (25 / 1000) 0 10 true none =
      Except.error "no original volume data. Set original volume first." ∧
    applyTrackingUpdate
      (updateLevelVolumeTracking "XYZ" 100 ⟨600, 60000, 3, 2⟩ (25 / 1000) 0 10 true none)
      none = none :=
  C9_absorption_requires_baseline "XYZ" 100 (25 / 1000) ⟨600, 60000, 3, 2⟩ 0 10 none (Or.inl rfl)

/-- C10: `link(job_id, level_id)` applies the level update only when the job
exists and its status is exactly "completed"; an unknown job id is rejected
with 404 and any other status (running, failed, intermediate) with 400, in
both cases before `update_level_volume_tracking` is called, so no tracking
update is performed (src/main.py lines 1403-1432). -/
theorem C10_link_requires_completed_job (jobs : String → Option JobRec) (jobId : String)
    (vt : Option VolumeTrackingRow) :
    (jobs jobId = none →
      linkJobToLevel jobs jobId vt = Except.error "Job not found" ∧
      applyTrackingUpdate (linkJobToLevel jobs jobId vt) vt = vt) ∧
    (∀ job : JobRec, jobs jobId = some job → job.status ≠ "completed" →
      linkJobToLevel jobs jobId vt = Except.error "Job must be completed to link to level" ∧
      applyTrackingUpdate (linkJobToLevel jobs jobId vt) vt = vt) ∧
    (∀ job : JobRec, jobs jobId = some job → job.status = "completed" →
      linkJobToLevel jobs jobId vt =
        updateLevelVolumeTracking job.ticker job.levelPrice job.result (25 / 1000)
          job.dateStart job.dateEnd job.isAbsorption vt) := by
  refine ⟨fun hnone => ?_, fun job hjob hst => ?_, fun job hjob hst => ?_⟩
  · have herr : linkJobToLevel jobs jobId vt = Except.error "Job not found" := by
      unfold linkJobToLevel
      rw [hnone]
    exact ⟨herr, by rw [herr]; rfl⟩
  · have herr : linkJobToLevel jobs jobId vt =
        Except.error "Job must be completed to link to level" := by
      unfold linkJobToLevel
      rw [hjob]
      dsimp only
      rw [if_neg hst]
    exact ⟨herr, by rw [herr]; rfl⟩
  · unfold linkJobToLevel
    rw [hjob]
    dsimp only
    rw [if_pos hst]

/-- A level's tracking row holding the baseline print of 1,500 shares. -/
def baselineRowExample : VolumeTrackingRow :=
  { ticker := "XYZ", levelPrice := 100, priceRangeLow := 99, priceRangeHigh := 101,
    originalVolume := 1500, originalValue := 150000,
    absorbedVolume := 0, absorbedValue := 0, absorptionPercentage := 0,
    originalDateStart := 0, originalDateEnd := 10, absorptionStartDate := 10 }

/-- Two absorption jobs: 600 shares, then 1,200 shares (the spec's scenarios
2 and 3). -/
def absorptionJobsExample : List AbsorptionJobSpec :=
  [⟨"job-1", ⟨600, 60000, 3, 2⟩, 11, 20⟩, ⟨"job-2", ⟨1200, 120000, 5, 2⟩, 21, 30⟩]

/-- Two absorption jobs: 600 shares, then 1,800 shares (over-absorbing the
1,500-share baseline). -/
def absorptionJobsOver : List AbsorptionJobSpec :=
  [⟨"job-1", ⟨600, 60000, 3, 2⟩, 11, 20⟩, ⟨"job-3", ⟨1800, 180000, 7, 2⟩, 21, 30⟩]

/-- C1, counterexample: against a baseline of 1,500 shares, absorption jobs
of 600 then 1,200 shares leave `absorbed_volume = 1200` and
`absorption_percentage = 80` - the second job overwrites the first instead
of summing into it - while the two recorded segments do sum to 1,800.  The
claim's cumulative values (1,800 and 120%) do not appear in the tracking
row. -/
theorem C1_absorption_not_cumulative :
    (runAbsorptionJobs "XYZ" 100 (25 / 1000) absorptionJobsExample
        (some baselineRowExample, [])).1 =
      some ⟨"XYZ", 100, 99, 101, 1500, 150000, 1200, 120000, 80, 0, 10, 30⟩ ∧
    ((runAbsorptionJobs "XYZ" 100 (25 / 1000) absorptionJobsExample
        (some baselineRowExample, [])).2.map AbsorptionSegment.volume).sum = 1800 ∧
    (1200 : Nat) ≠ 1800 ∧ (80 : Rat) ≠ 120 := by
  refine ⟨by decide, by decide, by decide, by decide⟩

/-- C1 (amended): after N >= 1 absorption jobs complete against a level with
baseline original volume V > 0, the VolumeTracking `absorbed_volume` and
`absorbed_value` equal the LAST job's totals - each completing job
overwrites the stored totals rather than summing into them
(src/main.py lines 862-864) - and `absorption_percentage` equals
100 x absorbed_volume / V, with values above 100 valid and not clamped;
the cumulative history lives only in the N recorded segments, one per
job. -/
theorem C1_absorption_overwrites (ticker : String) (levelPrice tolerance : Rat)
    (base : VolumeTrackingRow) (hV : 0 < base.originalVolume)
    (js : List AbsorptionJobSpec) (j : AbsorptionJobSpec)
    (hlast : js.getLast? = some j) (segs : List AbsorptionSegment) :
    ∃ row : VolumeTrackingRow,
      (runAbsorptionJobs ticker levelPrice tolerance js (some base, segs)).1 = some row ∧
      row.originalVolume = base.originalVolume ∧
      row.absorbedVolume = j.data.totalVolume ∧
      row.absorbedValue = j.data.totalValue ∧
      row.absorptionPercentage = ((j.data.totalVolume : Rat) / (base.originalVolume : Rat)) * 100 ∧
      (runAbsorptionJobs ticker levelPrice tolerance js (some base, segs)).2 =
        segs ++ js.map segmentOfJob := by
  revert hV hlast
  induction js generalizing base segs with
  | nil =>
    intro hV hlast
    simp at hlast
  | cons j0 rest ih =>
    intro hV hlast
    have hne : base.originalVolume ≠ 0 := Nat.pos_iff_ne_zero.mp hV
    have hstep := runAbsorptionJob_success ticker levelPrice tolerance j0 base segs hne
    rcases rest with _ | ⟨j1, rest2⟩
    · have hj : j0 = j := by simpa using hlast
      subst hj
      refine ⟨rowAfterAbsorption base j0, ?_, rfl, rfl, rfl, rfl, ?_⟩
      · rw [runAbsorptionJobs_cons, hstep]
        rfl
      · rw [runAbsorptionJobs_cons, hstep]
        simp [runAbsorptionJobs]
    · have hlast2 : (j1 :: rest2).getLast? = some j := by
        rw [← List.getLast?_cons_cons]
        exact hlast
      obtain ⟨row, hrow, horig, habsV, habsVal, hpct, hsegs⟩ :=
        ih (rowAfterAbsorption base j0) (segs ++ [segmentOfJob j0]) hV hlast2
      refine ⟨row, ?_, horig, habsV, habsVal, hpct, ?_⟩
      · rw [runAbsorptionJobs_cons, hstep]
        exact hrow
      · rw [runAbsorptionJobs_cons, hstep, hsegs]
        simp

/-- C1, witness: the overwriting behaviour at the concrete baseline of 1,500
shares with jobs of 600 then 1,800 shares, whose final percentage
120 exceeds 100 and is not clamped. -/
theorem C1_absorption_overwrites_witness :
    (100 : Rat) < ((1800 : Nat) : Rat) / ((1500 : Nat) : Rat) * 100 ∧
    ∃ row : VolumeTrackingRow,
      (runAbsorptionJobs "XYZ" 100 (25 / 1000) absorptionJobsOver
          (some baselineRowExample, [])).1 = some row ∧
      row.originalVolume = 1500 ∧
      row.absorbedVolume = 1800 ∧
      row.absorbedValue = 180000 ∧
      row.absorptionPercentage = ((1800 : Nat) : Rat) / ((1500 : Nat) : Rat) * 100 ∧
      (runAbsorptionJobs "XYZ" 100 (25 / 1000) absorptionJobsOver
          (some baselineRowExample, [])).2 = [] ++ absorptionJobsOver.map segmentOfJob :=
  ⟨by decide,
    C1_absorption_overwrites "XYZ" 100 (25 / 1000) baselineRowExample (by decide)
      absorptionJobsOver ⟨"job-3", ⟨1800, 180000, 7, 2⟩, 21, 30⟩ (by decide) []⟩

/-! ## Claims C4, C5, C6: the historical volume walker -/

/-- The trades of a list whose price lies in the closed tolerance band. -/
def bandFilter (lo hi : Rat) (l : List HistTrade) : List HistTrade :=
  l.filter fun t => decide (lo ≤ t.price ∧ t.price ≤ hi)

/-- Running the loop zero steps changes nothing. -/
lemma walkRun_zero (lo hi : Rat) (st : WalkState) (cont : Bool)
    (f : Nat → ProviderResponse) : walkRun lo hi st cont f 0 = (st, cont) := rfl

/-- One running step of the loop consumes the first response. -/
lemma walkRun_succ (lo hi : Rat) (st : WalkState) (f : Nat → ProviderResponse)
    (n : Nat) :
    walkRun lo hi st true f (n + 1) =
      walkRun lo hi (walkStep lo hi st (f 0)).1 (walkStep lo hi st (f 0)).2
        (fun k => f (k + 1)) n := rfl

/-- A stopped loop stays stopped. -/
lemma walkRun_stopped (lo hi : Rat) (st : WalkState) (f : Nat → ProviderResponse)
    (n : Nat) : walkRun lo hi st false f n = (st, false) := by
  cases n <;> rfl

/-- A step on a nonempty page folds its trades and keeps running iff a
`next_url` is present. -/
lemma walkStep_page (lo hi : Rat) (st : WalkState) (results : List HistTrade)
    (hasNext : Bool) (h : results ≠ []) :
    walkStep lo hi st (ProviderResponse.page results hasNext) =
      (results.foldl (processTrade lo hi) { st with apiCalls := st.apiCalls + 1 },
        hasNext) := by
  unfold walkStep
  dsimp only
  rw [if_neg h]
  cases hasNext <;> rfl

/-- The loop breaks at a step exactly when the response is terminal: an empty
page or a page without `next_url`; never on a fetch error. -/
lemma walkStep_snd_eq_false_iff (lo hi : Rat) (st : WalkState)
    (r : ProviderResponse) :
    (walkStep lo hi st r).2 = false ↔ isTerminalResponse r := by
  cases r with
  | fetchError => simp [walkStep, isTerminalResponse]
  | page results hasNext =>
    by_cases hres : results = []
    · subst hres
      simp [walkStep, isTerminalResponse]
    · rw [walkStep_page lo hi st results hasNext hres]
      cases hasNext <;> simp [isTerminalResponse, hres]

/-- If the loop has exited within `n` steps, some response among the first
`n` was terminal. -/
lemma exists_terminal_of_walkRun_false (lo hi : Rat) :
    ∀ (n : Nat) (f : Nat → ProviderResponse) (st : WalkState),
      (walkRun lo hi st true f n).2 = false → ∃ m, isTerminalResponse (f m) := by
  intro n
  induction n with
  | zero =>
    intro f st h
    exact absurd h (by simp [walkRun_zero])
  | succ n ih =>
    intro f st h
    by_cases hterm : isTerminalResponse (f 0)
    · exact ⟨0, hterm⟩
    · have hcont : (walkStep lo hi st (f 0)).2 = true := by
        cases h2 : (walkStep lo hi st (f 0)).2
        · exact absurd ((walkStep_snd_eq_false_iff lo hi st (f 0)).mp h2) hterm
        · rfl
      rw [walkRun_succ, hcont] at h
      obtain ⟨m, hm⟩ := ih (fun k => f (k + 1)) (walkStep lo hi st (f 0)).1 h
      exact ⟨m + 1, hm⟩

/-- If some response is terminal, the loop exits (at the first such
response, or earlier). -/
lemma walkRun_false_of_terminal (lo hi : Rat) :
    ∀ (n : Nat) (f : Nat → ProviderResponse) (st : WalkState),
      isTerminalResponse (f n) →
      ∃ m, (walkRun lo hi st true f m).2 = false := by
  intro n
  induction n with
  | zero =>
    intro f st hterm
    refine ⟨1, ?_⟩
    rw [walkRun_succ]
    rw [(walkStep_snd_eq_false_iff lo hi st (f 0)).mpr hterm]
    rw [walkRun_stopped]
  | succ n ih =>
    intro f st hterm
    cases h2 : (walkStep lo hi st (f 0)).2
    · refine ⟨1, ?_⟩
      rw [walkRun_succ, h2, walkRun_stopped]
    · obtain ⟨m, hm⟩ := ih (fun k => f (k + 1)) (walkStep lo hi st (f 0)).1 hterm
      refine ⟨m + 1, ?_⟩
      rw [walkRun_succ, h2]
      exact hm

/-- Every step of the endless provider keeps the loop running. -/
lemma endless_walkRun_snd (lo hi : Rat) :
    ∀ (n : Nat) (st : WalkState),
      (walkRun lo hi st true endlessResponses n).2 = true := by
  intro n
  induction n with
  | zero => intro st; rfl
  | succ n ih =>
    intro st
    rw [walkRun_succ]
    have hshift : (fun k => endlessResponses (k + 1)) = endlessResponses := by
      funext k
      rfl
    have hstep : (walkStep lo hi st (endlessResponses 0)).2 = true := rfl
    rw [hshift, hstep]
    exact ih (walkStep lo hi st (endlessResponses 0)).1

/-- C4, counterexample: `unlimited_fast_calculate_level_volume` has no
page-count cap (its only numeric 200 is the per-request timeout of line 403):
against a provider that always returns a nonempty page with a `next_url`, the
`while url:` loop never exits, so the walker does not terminate for every
provider response sequence. -/
theorem C4_pathological_sequence_never_terminates :
    ¬ WalkTerminates 99 101 endlessResponses := by
  rintro ⟨n, hn⟩
  rw [endless_walkRun_snd 99 101 n initWalkState] at hn
  exact absurd hn (by decide)

/-- C4 (amended): the walker terminates exactly when some fetch attempt
returns a page with an empty `results` array or without a `next_url`; there
is no page-count cap in the code, and a fetch error never ends the loop (the
URL is retried), so a pathological sequence of nonempty pages that always
carry a `next_url` - or of endless fetch errors - runs forever. -/
theorem C4_termination_iff_terminal_page (lo hi : Rat) (f : Nat → ProviderResponse) :
    WalkTerminates lo hi f ↔ ∃ n, isTerminalResponse (f n) := by
  constructor
  · rintro ⟨n, hn⟩
    exact exists_terminal_of_walkRun_false lo hi n f initWalkState hn
  · rintro ⟨n, hn⟩
    exact walkRun_false_of_terminal lo hi n f initWalkState hn

/-- A walk seeing a page of 500 shares, then a fetch error, then a final page
of 1,000 shares. -/
def errorBetweenPages : Nat → ProviderResponse
  | 0 => ProviderResponse.page [⟨500, 100⟩] true
  | 1 => ProviderResponse.fetchError
  | 2 => ProviderResponse.page [⟨1000, 100⟩] false
  | _ + 3 => ProviderResponse.page [] false

/-- C5, counterexample: a page-fetch error does not abort the walk - the
loop keeps running (flag still true after the failed attempt), finishes on
the next page, and the volume gathered BEFORE the error (500 shares) is kept
and reported; the job built on this walk completes rather than failing
(src/main.py lines 412-416: "Continue with partial data instead of
breaking"). -/
theorem C5_fetch_error_does_not_abort :
    errorBetweenPages 1 = ProviderResponse.fetchError ∧
    (walkRun 99 101 initWalkState true errorBetweenPages 2).2 = true ∧
    (walkRun 99 101 initWalkState true errorBetweenPages 2).1.totalVolume = 500 ∧
    (walkRun 99 101 initWalkState true errorBetweenPages 3).2 = false ∧
    (walkRun 99 101 initWalkState true errorBetweenPages 3).1.totalVolume = 1500 ∧
    enhancedVolumeJobOutcome (walkerOutcome true 99 101 errorBetweenPages 3) false
        ⟨0, 0, 0, 0⟩ =
      { status := "completed", error := none, result := some ⟨1500, 150000, 2, 3⟩ } := by
  refine ⟨rfl, by decide, by decide, by decide, by decide, by decide⟩

/-- C5 (amended): a page-fetch error inside the loop does not abort the walk:
the attempt only increments `api_calls` and the loop continues with the same
URL, keeping all accumulation (src/main.py lines 408-416).  A job is marked
failed, with no result reported, only when the walker itself raises - which
happens before the page loop (missing API key) - and the cached fallback is
unavailable; when the walker returns, the job completes with the walker's
totals. -/
theorem C5_fetch_error_continues (lo hi : Rat) (st : WalkState) (r : WalkerResult)
    (e : String) :
    walkStep lo hi st ProviderResponse.fetchError =
      ({ st with apiCalls := st.apiCalls + 1 }, true) ∧
    enhancedVolumeJobOutcome (Except.ok r) false r =
      { status := "completed", error := none, result := some r } ∧
    enhancedVolumeJobOutcome (Except.error e) false r =
      { status := "failed", error := some e, result := none } :=
  ⟨rfl, rfl, rfl⟩

/-- Folding one page of positive trades accumulates exactly the in-band
sizes, values and count, and never touches `api_calls`. -/
lemma foldl_processTrade_totals (lo hi : Rat) (l : List HistTrade) :
    ∀ st : WalkState, (∀ t ∈ l, 0 < t.size ∧ 0 < t.price) →
      (l.foldl (processTrade lo hi) st).totalVolume =
          st.totalVolume + ((bandFilter lo hi l).map HistTrade.size).sum ∧
      (l.foldl (processTrade lo hi) st).totalValue =
          st.totalValue + ((bandFilter lo hi l).map fun t => (t.size : Rat) * t.price).sum ∧
      (l.foldl (processTrade lo hi) st).totalTrades =
          st.totalTrades + (bandFilter lo hi l).length ∧
      (l.foldl (processTrade lo hi) st).apiCalls = st.apiCalls := by
  induction l with
  | nil =>
    intro st _
    simp [bandFilter]
  | cons t l ih =>
    intro st hpos
    have ht := hpos t (List.mem_cons_self t l)
    have hl : ∀ t2 ∈ l, 0 < t2.size ∧ 0 < t2.price :=
      fun t2 h2 => hpos t2 (List.mem_cons_of_mem t h2)
    have hskip : ¬(t.size = 0 ∨ t.price = 0) := by
      push_neg
      exact ⟨Nat.pos_iff_ne_zero.mp ht.1, ne_of_gt ht.2⟩
    obtain ⟨h1, h2, h3, h4⟩ := ih (processTrade lo hi st t) hl
    by_cases hband : lo ≤ t.price ∧ t.price ≤ hi
    · have hPt : processTrade lo hi st t = { st with
          totalVolume := st.totalVolume + t.size
          totalValue := st.totalValue + (t.size : Rat) * t.price
          totalTrades := st.totalTrades + 1
          minActualPrice := some (match st.minActualPrice with
            | none => t.price
            | some m => min m t.price)
          maxActualPrice := max st.maxActualPrice t.price } := by
        unfold processTrade
        rw [if_neg hskip, if_pos hband]
      have hfil : bandFilter lo hi (t :: l) = t :: bandFilter lo hi l := by
        simp [bandFilter, List.filter_cons, hband]
      rw [hPt] at h1 h2 h3 h4
      refine ⟨?_, ?_, ?_, ?_⟩
      · rw [List.foldl_cons, hPt, h1, hfil]
        simp [Nat.add_assoc]
      · rw [List.foldl_cons, hPt, h2, hfil]
        simp [add_assoc]
      · rw [List.foldl_cons, hPt, h3, hfil]
        simp only [List.length_cons]
        omega
      · rw [List.foldl_cons, hPt, h4]
    · have hPt : processTrade lo hi st t = st := by
        unfold processTrade
        rw [if_neg hskip, if_neg hband]
      have hfil : bandFilter lo hi (t :: l) = bandFilter lo hi l := by
        simp [bandFilter, List.filter_cons, hband]
      rw [hPt] at h1 h2 h3 h4
      refine ⟨?_, ?_, ?_, ?_⟩
      · rw [List.foldl_cons, hPt, h1, hfil]
      · rw [List.foldl_cons, hPt, h2, hfil]
      · rw [List.foldl_cons, hPt, h3, hfil]
      · rw [List.foldl_cons, hPt, h4]

/-- The first response of a provider holding `p :: ps`. -/
lemma pagesResponses_zero (p : List HistTrade) (ps : List (List HistTrade)) :
    pagesResponses (p :: ps) 0 = ProviderResponse.page p (decide (0 < ps.length)) := by
  unfold pagesResponses
  rw [if_pos (by simp)]
  congr 1
  exact decide_eq_decide.mpr (by simp)

/-- Dropping the first response of a provider holding `p :: ps` yields the
provider holding `ps`. -/
lemma pagesResponses_shift (p : List HistTrade) (ps : List (List HistTrade)) :
    (fun k => pagesResponses (p :: ps) (k + 1)) = pagesResponses ps := by
  funext k
  unfold pagesResponses
  by_cases h : k < ps.length
  · rw [if_pos (by simpa using h), if_pos h]
    simp only [List.getD_cons_succ]
    congr 1
    exact decide_eq_decide.mpr (by simp only [List.length_cons]; omega)
  · rw [if_neg (by simpa using h), if_neg h]

/-- Walking a nonempty list of nonempty pages of positive trades terminates
after exactly one fetch per page and accumulates exactly the in-band totals
over all pages. -/
lemma walkRun_pages (lo hi : Rat) :
    ∀ (pages : List (List HistTrade)) (st : WalkState),
      pages ≠ [] →
      (∀ p ∈ pages, p ≠ []) →
      (∀ p ∈ pages, ∀ t ∈ p, 0 < t.size ∧ 0 < t.price) →
      (walkRun lo hi st true (pagesResponses pages) pages.length).2 = false ∧
      (walkRun lo hi st true (pagesResponses pages) pages.length).1.totalVolume =
        st.totalVolume + ((bandFilter lo hi pages.flatten).map HistTrade.size).sum ∧
      (walkRun lo hi st true (pagesResponses pages) pages.length).1.totalValue =
        st.totalValue +
          ((bandFilter lo hi pages.flatten).map fun t => (t.size : Rat) * t.price).sum ∧
      (walkRun lo hi st true (pagesResponses pages) pages.length).1.totalTrades =
        st.totalTrades + (bandFilter lo hi pages.flatten).length := by
  intro pages
  induction pages with
  | nil => intro st h0; exact absurd rfl h0
  | cons p ps ih =>
    intro st _ hne hpos
    have hp : p ≠ [] := hne p (List.mem_cons_self p ps)
    have hppos : ∀ t ∈ p, 0 < t.size ∧ 0 < t.price :=
      hpos p (List.mem_cons_self p ps)
    have hstep : walkStep lo hi st (pagesResponses (p :: ps) 0) =
        (p.foldl (processTrade lo hi) { st with apiCalls := st.apiCalls + 1 },
          decide (0 < ps.length)) := by
      rw [pagesResponses_zero, walkStep_page lo hi st p _ hp]
    obtain ⟨f1, f2, f3, f4⟩ :=
      foldl_processTrade_totals lo hi p { st with apiCalls := st.apiCalls + 1 } hppos
    rcases ps with _ | ⟨q, ps2⟩
    · have hlen : ([p] : List (List HistTrade)).length = 1 := rfl
      rw [hlen, walkRun_succ, hstep]
      have hnext : (decide (0 < ([] : List (List HistTrade)).length)) = false := by decide
      rw [hnext, walkRun_stopped]
      refine ⟨rfl, ?_, ?_, ?_⟩
      · rw [f1]
        simp
      · rw [f2]
        simp
      · rw [f3]
        simp
    · have hlen : ((p :: q :: ps2) : List (List HistTrade)).length = (q :: ps2).length + 1 :=
        rfl
      rw [hlen, walkRun_succ, hstep]
      have hnext : (decide (0 < (q :: ps2).length)) = true := by simp
      rw [hnext, pagesResponses_shift]
      obtain ⟨g1, g2, g3, g4⟩ :=
        ih (p.foldl (processTrade lo hi) { st with apiCalls := st.apiCalls + 1 })
          (by simp) (fun p2 h2 => hne p2 (List.mem_cons_of_mem p h2))
          (fun p2 h2 => hpos p2 (List.mem_cons_of_mem p h2))
      refine ⟨g1, ?_, ?_, ?_⟩
      · rw [g2, f1]
        simp [bandFilter, List.filter_append, Nat.add_assoc]
      · rw [g3, f2]
        simp [bandFilter, List.filter_append, add_assoc]
      · rw [g4, f3]
        simp [bandFilter, List.filter_append, Nat.add_assoc]

/-- C6: over any nonempty sequence of nonempty provider pages whose trades
have positive size and price, the walker's `total_volume`, `total_value` and
`total_trades` equal exactly the sum of size, size x price, and the count,
over the trades whose price lies in the closed band
`[level - tolerance, level + tolerance]`; every trade outside the band
contributes nothing (src/main.py lines 424-439). -/
theorem C6_walker_aggregation (lo hi : Rat) (pages : List (List HistTrade))
    (hne0 : pages ≠ []) (hne : ∀ p ∈ pages, p ≠ [])
    (hpos : ∀ p ∈ pages, ∀ t ∈ p, 0 < t.size ∧ 0 < t.price) :
    (walkRun lo hi initWalkState true (pagesResponses pages) pages.length).2 = false ∧
    (walkRun lo hi initWalkState true (pagesResponses pages) pages.length).1.totalVolume =
      ((bandFilter lo hi pages.flatten).map HistTrade.size).sum ∧
    (walkRun lo hi initWalkState true (pagesResponses pages) pages.length).1.totalValue =
      ((bandFilter lo hi pages.flatten).map fun t => (t.size : Rat) * t.price).sum ∧
    (walkRun lo hi initWalkState true (pagesResponses pages) pages.length).1.totalTrades =
      (bandFilter lo hi pages.flatten).length := by
  have h := walkRun_pages lo hi pages initWalkState hne0 hne hpos
  simpa [initWalkState] using h

/-- The provider pages of the spec's end-to-end scenario 1: one page holding
1,000 shares at $100.00 and 500 shares at $100.02. -/
def scenarioOnePages : List (List HistTrade) := [[⟨1000, 100⟩, ⟨500, 100 + 2 / 100⟩]]

/-- C6, witness: scenario 1 - level 100.00, tolerance 0.025 - where both
trades fall in the band and `total_volume = 1500`. -/
theorem C6_walker_aggregation_witness :
    ((bandFilter (100 - 25 / 1000) (100 + 25 / 1000) scenarioOnePages.flatten).map
        HistTrade.size).sum = 1500 ∧
    ((walkRun (100 - 25 / 1000) (100 + 25 / 1000) initWalkState true
        (pagesResponses scenarioOnePages) scenarioOnePages.length).2 = false ∧
      (walkRun (100 - 25 / 1000) (100 + 25 / 1000) initWalkState true
          (pagesResponses scenarioOnePages) scenarioOnePages.length).1.totalVolume =
        ((bandFilter (100 - 25 / 1000) (100 + 25 / 1000) scenarioOnePages.flatten).map
            HistTrade.size).sum ∧
      (walkRun (100 - 25 / 1000) (100 + 25 / 1000) initWalkState true
          (pagesResponses scenarioOnePages) scenarioOnePages.length).1.totalValue =
        ((bandFilter (100 - 25 / 1000) (100 + 25 / 1000) scenarioOnePages.flatten).map
            fun t => (t.size : Rat) * t.price).sum ∧
      (walkRun (100 - 25 / 1000) (100 + 25 / 1000) initWalkState true
          (pagesResponses scenarioOnePages) scenarioOnePages.length).1.totalTrades =
        (bandFilter (100 - 25 / 1000) (100 + 25 / 1000) scenarioOnePages.flatten).length) :=
  ⟨by decide,
    C6_walker_aggregation (100 - 25 / 1000) (100 + 25 / 1000) scenarioOnePages
      (by decide) (by decide) (by decide)⟩

/-- C3, witness: the amended agreement applied to a concrete lit trade
(venue 7, no facility id, 100 shares at $200,000). -/
theorem C3_live_backfill_partial_agreement_witness :
    (classifyLive ⟨some 7, none, 100, 200000⟩ = Classification.Lit ↔
      classifyBackfill ⟨some 7, none, 100, 200000⟩ = Classification.Lit) ∧
    (classifyLive ⟨some 7, none, 100, 200000⟩ = Classification.Block →
      classifyBackfill ⟨some 7, none, 100, 200000⟩ = Classification.Block) :=
  C3_live_backfill_partial_agreement ⟨some 7, none, 100, 200000⟩ (by decide)
